import Mathlib

set_option maxRecDepth 10000

/-!
Shallow embedding of `hoomd/hpmc/pair/user.py`: user-defined pair
potentials for HPMC simulations (`CPPPotentialBase`, `CPPPotential`,
`_CPPUnionPotential`).

Modelling conventions:
* Python `float`/numpy `float32` values are modelled by `F32`, an
  uninterpreted value type that distinguishes finite values from the
  non-finite ones (`nan`, `±inf`).  No floating-point arithmetic is
  performed anywhere in the embedded code, so this is faithful.
* Python exceptions are modelled by the `PErr` type; a mutating method
  that can raise returns `Option PErr × State`, where the returned state
  is the object's state after the call (unchanged when the method raises
  before mutating, exactly as in the source).
* Calls into the external JIT layer (`_wrap_cpu_code`/`_wrap_gpu_code`
  invocations and the constructor of the compiled evaluator, which is
  where compilation happens) are recorded in an `JITAction` trace so that
  theorems can speak about what was wrapped/compiled and in which order.
* `hoomd.data` helpers (`ParameterDict`, `NDArrayValidator`) are not part
  of the sources; where their behaviour decides a claim they are modelled
  from the spec (see the `Modelled from the spec:` doc comments).
-/

/-- Model of a float32 value: finite values are uninterpreted (tagged by an
integer id); the non-finite values `nan`, `+inf`, `-inf` are distinguished.
No arithmetic is ever performed on these in the embedded code. -/
inductive F32 where
  | finite (v : Int)
  | nan
  | posInf
  | negInf
  deriving DecidableEq, Repr

/-- `numpy.isfinite` on the `F32` model. -/
def F32.isFinite : F32 → Bool
  | .finite _ => true
  | _ => false

/-- Python exceptions raised by the embedded code. -/
inductive PErr where
  /-- `RuntimeError("The integrator must be a/an HPMC integrator.")` -/
  | notHPMCIntegrator
  /-- `RuntimeError("Integrator is not attached yet.")` -/
  | integratorNotAttached
  /-- `AttributeError` raised by setters that refuse mutation while
  attached (and the spec's `AttachedImmutableError`). -/
  | attachedImmutable
  /-- the spec's `InvalidParameterError` (non-finite parameter values). -/
  | invalidParameter
  /-- `TypeError` from concatenating a `None` code body into a template. -/
  | typeError
  /-- `AttributeError` from attribute access on `None`. -/
  | attributeError
  deriving DecidableEq, Repr

/-- The two precondition failures of `_attach` (spec: `EngineNotReady` /
`PreconditionError`). -/
def PErr.isPrecondition : PErr → Bool
  | .notHPMCIntegrator => true
  | .integratorNotAttached => true
  | _ => false

/-- Compilation / execution target of the simulation device. -/
inductive DeviceKind where
  | CPU
  | GPU
  deriving DecidableEq, Repr

/-- Calls into the external JIT layer made during `_attach`, in order:
the two source-wrapping helpers and the evaluator construction (which is
where the source is compiled, with the given option list). -/
inductive JITAction where
  | wrapCPU (body : String)
  | wrapGPU (body : String)
  | compile (target : DeviceKind) (options : List String)
  deriving DecidableEq, Repr

/-- The move engine (`simulation.operations.integrator`) as seen by this
layer: its kind (`isinstance(integrator, integrate.HPMCIntegrator)`),
its own attachment flag (`integrator._attached`) and the accumulated
pair-energy query (`integrator._cpp_obj.computePatchEnergy`). -/
structure Integrator where
  isHPMC : Bool
  attached : Bool
  computePatchEnergy : Nat → F32

/-- The simulation context read by `_attach` and `energy`. -/
structure Simulation where
  integrator : Option Integrator
  timestep : Nat
  device : DeviceKind
  /-- `_compile.get_cpu_include_options()` (opaque). -/
  cpuIncludeOptions : List String
  /-- `_compile.get_gpu_compilation_settings(device)["includes"]` (opaque). -/
  gpuIncludes : List String

/-! ### Kernel source builder (`_wrap_cpu_code` / `_wrap_gpu_code`)

The Python builders are string concatenations of fixed template pieces
around the user body; the pieces below are byte-identical to the
triple-quoted literals in the source. -/

def cpu_head : String :=
  "\n                        #include <stdio.h>\n                        #include \"hoomd/HOOMDMath.h\"\n                        #include \"hoomd/VectorMath.h\"\n\n                        // these are allocated by the library\n                        float *param_array;\n                        float *alpha_union;\n\n                        extern \"C\"\n                        \x7b\n                        float eval(const vec3<float>& r_ij,\n                            unsigned int type_i,\n                            const quat<float>& q_i,\n                            float d_i,\n                            float charge_i,\n                            unsigned int type_j,\n                            const quat<float>& q_j,\n                            float d_j,\n                            float charge_j)\n                            \x7b\n                        "

def cpu_tail : String :=
  "\n                            \x7d\n                        \x7d\n                        "

def gpu_head : String :=
  "\n                        #include \"hoomd/HOOMDMath.h\"\n                        #include \"hoomd/VectorMath.h\"\n                        #include \"hoomd/hpmc/IntegratorHPMCMonoGPUJIT.inc\"\n\n                        // these are allocated by the library\n                        __device__ float *param_array;\n                        __device__ float *alpha_union;\n\n                        __device__ inline float eval(const vec3<float>& r_ij,\n                            unsigned int type_i,\n                            const quat<float>& q_i,\n                            float d_i,\n                            float charge_i,\n                            unsigned int type_j,\n                            const quat<float>& q_j,\n                            float d_j,\n                            float charge_j)\n                            \x7b\n                        "

def gpu_tail : String :=
  "\n                            \x7d\n                        "

/-- The fixed nine-argument `eval` signature (relative position, then type
id, orientation, diameter and charge for each of the two particles),
exactly as it appears in both templates. -/
def eval_signature : String :=
  "float eval(const vec3<float>& r_ij,\n                            unsigned int type_i,\n                            const quat<float>& q_i,\n                            float d_i,\n                            float charge_i,\n                            unsigned int type_j,\n                            const quat<float>& q_j,\n                            float d_j,\n                            float charge_j)"

/-- `CPPPotentialBase._wrap_cpu_code`: splices the user body between the
fixed CPU template pieces. -/
def wrap_cpu_code (code : String) : String :=
  cpu_head ++ code ++ cpu_tail

/-- `CPPPotentialBase._wrap_gpu_code`: splices the user body between the
fixed GPU template pieces. -/
def wrap_gpu_code (code : String) : String :=
  gpu_head ++ code ++ gpu_tail

/-- The wrapper text contributed by the CPU builder (everything except the
spliced user body, which lands strictly inside the braces of `eval`). -/
def cpu_template : String := cpu_head ++ cpu_tail

/-- The wrapper text contributed by the GPU builder. -/
def gpu_template : String := gpu_head ++ gpu_tail

/-- Whether `p` is a prefix of `l` (character lists). -/
def listStartsWith : List Char → List Char → Bool
  | [], _ => true
  | _ :: _, [] => false
  | p :: ps, c :: cs => p == c && listStartsWith ps cs

/-- Number of (possibly overlapping) occurrences of `pat` in `l`. -/
def countOccsList (pat : List Char) : List Char → Nat
  | [] => 0
  | c :: rest =>
      (if listStartsWith pat (c :: rest) then 1 else 0) + countOccsList pat rest

/-- Number of occurrences of the pattern `pat` in the string `s`. -/
def countOccs (s pat : String) : Nat :=
  countOccsList pat.toList s.toList

/-! ### `CPPPotentialBase` -/

/-- The state of a `CPPPotentialBase` (`r_cut`, `code`, `param_array` held
in the parameter dict, plus the `_attached` flag maintained by the
operation base class). -/
structure CPPPotentialBaseState where
  r_cut : F32
  code : Option String
  param_array : List F32
  attached : Bool
  deriving DecidableEq, Repr

/-- Modelled from the spec: the validation that `hoomd.data`'s
`NDArrayValidator`/`ParameterDict` (not part of the sources) applies to a
supplied parameter array — an array containing non-finite values is
rejected with `InvalidParameterError` before any state is stored. -/
def ndarray_validator_ok (arr : List F32) : Bool :=
  arr.all F32.isFinite

/-- `CPPPotentialBase.__init__`: stores `r_cut`, `code` and the parameter
array (empty when `param_array is None`); a supplied array is validated
(see `ndarray_validator_ok`). -/
def CPPPotentialBase_init (r_cut : F32) (code : Option String)
    (param_array : Option (List F32)) : Except PErr CPPPotentialBaseState :=
  match param_array with
  | none =>
      .ok { r_cut := r_cut, code := code, param_array := [], attached := false }
  | some arr =>
      if ndarray_validator_ok arr then
        .ok { r_cut := r_cut, code := code, param_array := arr, attached := false }
      else
        .error .invalidParameter

/-- `l` truncated/zero-padded to length `n`. -/
def resizeList (l : List F32) (n : Nat) : List F32 :=
  (l ++ List.replicate n (F32.finite 0)).take n

/-- Modelled from the spec: resizing the parameter array (performed through
`ParameterDict`/`NDArrayValidator` re-assignment, not part of the sources)
succeeds for any non-negative length while the potential is not attached,
and fails with `AttachedImmutableError` while it is attached, leaving the
stored array untouched. -/
def param_array_resize (s : CPPPotentialBaseState) (n : Nat) :
    Option PErr × CPPPotentialBaseState :=
  if s.attached then
    (some .attachedImmutable, s)
  else
    (none, { s with param_array := resizeList s.param_array n })

/-- `CPPPotentialBase.energy`: reads the integrator and the current
timestep, returns `None` when not attached, and otherwise delegates to
`integrator._cpp_obj.computePatchEnergy(timestep)` (attribute access on a
missing integrator would raise, modelled as `attributeError`). -/
def CPPPotentialBase_energy (sim : Simulation) (s : CPPPotentialBaseState) :
    Except PErr (Option F32) :=
  if !s.attached then
    .ok none
  else
    match sim.integrator with
    | some integ => .ok (some (integ.computePatchEnergy sim.timestep))
    | none => .error .attributeError

/-- `CPPPotential._attach`: checks that the integrator is an HPMC
integrator and itself attached (raising before any wrapping or compilation
otherwise), wraps the body for the CPU, additionally wraps it for the GPU
on a GPU device, and constructs the compiled evaluator
(`PatchEnergyJITGPU` with the GPU include options, or `PatchEnergyJIT`
with the CPU include options). -/
def CPPPotential_attach (sim : Simulation) (s : CPPPotentialBaseState) :
    Option PErr × CPPPotentialBaseState × List JITAction :=
  match sim.integrator with
  | none => (some .notHPMCIntegrator, s, [])
  | some integ =>
    if !integ.isHPMC then
      (some .notHPMCIntegrator, s, [])
    else if !integ.attached then
      (some .integratorNotAttached, s, [])
    else
      match s.code with
      | none => (some .typeError, s, [])
      | some c =>
        match sim.device with
        | .GPU =>
            (none, { s with attached := true },
              [JITAction.wrapCPU c, JITAction.wrapGPU c,
               JITAction.compile .GPU sim.gpuIncludes])
        | .CPU =>
            (none, { s with attached := true },
              [JITAction.wrapCPU c, JITAction.compile .CPU sim.cpuIncludeOptions])

/-! ### `_CPPUnionPotential` -/

/-- The state of a `_CPPUnionPotential`.  On top of the base-class fields
it holds the union-specific parameter-dict entries (`r_cut_constituent`,
`r_cut_isotropic`, `leaf_capacity`), the python-only code bodies, and the
two mirrored parameter arrays `alpha_iso`/`alpha_union`: the host-cached
values, the engine-owned buffers (present once the compiled evaluator
exists) and, per array, whether the host-visible accessor has been
repointed to alias the engine buffer.  The per-type constituent geometry
(`positions`, `orientations`, `diameters`, `charges`, `typeids`) plays no
role in the claims below and is not modelled. -/
structure CPPUnionPotentialState where
  base : CPPPotentialBaseState
  r_cut_constituent : F32
  r_cut_isotropic : F32
  leaf_capacity : Nat
  code_constituent : Option String
  code_isotropic : Option String
  alpha_iso_host : List F32
  alpha_union_host : List F32
  cpp_alpha_iso : Option (List F32)
  cpp_alpha_union : Option (List F32)
  alpha_iso_aliased : Bool
  alpha_union_aliased : Bool
  deriving DecidableEq, Repr

/-- `_CPPUnionPotential.__init__`: delegates to the base constructor with
`r_cut = r_cut_isotropic`, `code = code_isotropic` and the supplied
parameter array, then stores the union-specific parameters, with
`leaf_capacity` unconditionally initialized to `4` (the constructor takes
no leaf-capacity argument). -/
def CPPUnionPotential_init (r_cut_constituent r_cut_isotropic : F32)
    (code_constituent code_isotropic : Option String)
    (param_array : Option (List F32)) : Except PErr CPPUnionPotentialState :=
  match CPPPotentialBase_init r_cut_isotropic code_isotropic param_array with
  | .error e => .error e
  | .ok b =>
      .ok { base := b
            r_cut_constituent := r_cut_constituent
            r_cut_isotropic := r_cut_isotropic
            leaf_capacity := 4
            code_constituent := code_constituent
            code_isotropic := code_isotropic
            alpha_iso_host := []
            alpha_union_host := []
            cpp_alpha_iso := none
            cpp_alpha_union := none
            alpha_iso_aliased := false
            alpha_union_aliased := false }

/-- Read `alpha_iso[i]` through the host-visible accessor: after the
accessor has been repointed it reads the engine-owned buffer, before that
it reads the host-cached values. -/
def alpha_iso_read (s : CPPUnionPotentialState) (i : Nat) : Option F32 :=
  if s.alpha_iso_aliased then (s.cpp_alpha_iso.getD [])[i]?
  else s.alpha_iso_host[i]?

/-- Write `alpha_iso[i] = v` through the host-visible accessor. -/
def alpha_iso_write (s : CPPUnionPotentialState) (i : Nat) (v : F32) :
    CPPUnionPotentialState :=
  if s.alpha_iso_aliased then
    { s with cpp_alpha_iso := some ((s.cpp_alpha_iso.getD []).set i v) }
  else
    { s with alpha_iso_host := s.alpha_iso_host.set i v }

/-- Read `alpha_union[i]` through the host-visible accessor. -/
def alpha_union_read (s : CPPUnionPotentialState) (i : Nat) : Option F32 :=
  if s.alpha_union_aliased then (s.cpp_alpha_union.getD [])[i]?
  else s.alpha_union_host[i]?

/-- Write `alpha_union[i] = v` through the host-visible accessor. -/
def alpha_union_write (s : CPPUnionPotentialState) (i : Nat) (v : F32) :
    CPPUnionPotentialState :=
  if s.alpha_union_aliased then
    { s with cpp_alpha_union := some ((s.cpp_alpha_union.getD []).set i v) }
  else
    { s with alpha_union_host := s.alpha_union_host.set i v }

/-- Length of the parameter array currently seen through the `alpha_iso`
accessor. -/
def alpha_iso_len (s : CPPUnionPotentialState) : Nat :=
  if s.alpha_iso_aliased then (s.cpp_alpha_iso.getD []).length
  else s.alpha_iso_host.length

/-- Length of the parameter array currently seen through the `alpha_union`
accessor. -/
def alpha_union_len (s : CPPUnionPotentialState) : Nat :=
  if s.alpha_union_aliased then (s.cpp_alpha_union.getD []).length
  else s.alpha_union_host.length

/-- `_CPPUnionPotential._attach`: checks the integrator preconditions
(raising before any wrapping or compilation otherwise); wraps the
constituent body and then the isotropic body for the CPU; on a GPU device
additionally wraps only the isotropic body for the GPU and constructs
`PatchEnergyJITUnionGPU` with the GPU include options plus the
`-DUNION_EVAL` union-mode flag, while on a CPU device it constructs
`PatchEnergyJITUnion` with the CPU include options; finally copies the
host-cached `alpha_iso`/`alpha_union` values into the engine-owned
buffers and repoints the host-visible accessors to alias those buffers,
then attaches.  Wrapping a `None` body raises `TypeError` (string
concatenation with `None`). -/
def CPPUnionPotential_attach (sim : Simulation) (s : CPPUnionPotentialState) :
    Option PErr × CPPUnionPotentialState × List JITAction :=
  match sim.integrator with
  | none => (some .notHPMCIntegrator, s, [])
  | some integ =>
    if !integ.isHPMC then
      (some .notHPMCIntegrator, s, [])
    else if !integ.attached then
      (some .integratorNotAttached, s, [])
    else
      match s.code_constituent with
      | none => (some .typeError, s, [])
      | some cc =>
        match s.code_isotropic with
        | none => (some .typeError, s, [JITAction.wrapCPU cc])
        | some ci =>
          let compileActs : List JITAction :=
            match sim.device with
            | .GPU =>
                [JITAction.wrapGPU ci,
                 JITAction.compile .GPU (sim.gpuIncludes ++ ["-DUNION_EVAL"])]
            | .CPU =>
                [JITAction.compile .CPU sim.cpuIncludeOptions]
          let s' : CPPUnionPotentialState :=
            { s with
              cpp_alpha_iso := some s.alpha_iso_host
              cpp_alpha_union := some s.alpha_union_host
              alpha_iso_aliased := true
              alpha_union_aliased := true
              base := { s.base with attached := true } }
          (none, s', [JITAction.wrapCPU cc, JITAction.wrapCPU ci] ++ compileActs)

/-- `_CPPUnionPotential.code_constituent` getter: returns the stored body. -/
def code_constituent_get (s : CPPUnionPotentialState) : Option String :=
  s.code_constituent

/-- `_CPPUnionPotential.code_constituent` setter: raises `AttributeError`
while attached (leaving the stored body unchanged), and stores the new
body otherwise. -/
def code_constituent_set (s : CPPUnionPotentialState) (code : String) :
    Option PErr × CPPUnionPotentialState :=
  if s.base.attached then
    (some .attachedImmutable, s)
  else
    (none, { s with code_constituent := some code })

/-! ### Auxiliary predicates and concrete fixtures -/

/-- Whether the move-engine precondition of `_attach` fails: no integrator,
an integrator that is not an HPMC integrator, or one that is not itself
attached. -/
def integratorNotReady (sim : Simulation) : Bool :=
  match sim.integrator with
  | none => true
  | some integ => !integ.isHPMC || !integ.attached

/-- Whether a method outcome is one of the precondition
(`EngineNotReady`/`PreconditionError`) failures. -/
def isPreconditionFailure (r : Option PErr) : Bool :=
  match r with
  | some e => e.isPrecondition
  | none => false

/-- Whether an `energy` outcome is a numeric value (as opposed to `None`
or an exception). -/
def energy_is_numeric (r : Except PErr (Option F32)) : Bool :=
  match r with
  | .ok (some _) => true
  | _ => false

/-- A ready move engine: an HPMC integrator that is already attached. -/
def integReady : Integrator :=
  { isHPMC := true, attached := true, computePatchEnergy := fun _ => F32.finite 7 }

/-- A simulation with no integrator set. -/
def simNoIntegrator : Simulation :=
  { integrator := none, timestep := 0, device := .CPU,
    cpuIncludeOptions := [], gpuIncludes := [] }

/-- A CPU-device simulation with a ready HPMC integrator. -/
def simReadyCPU : Simulation :=
  { integrator := some integReady, timestep := 5, device := .CPU,
    cpuIncludeOptions := ["-I/cpu/include"], gpuIncludes := [] }

/-- A GPU-device simulation with a ready HPMC integrator. -/
def simReadyGPU : Simulation :=
  { integrator := some integReady, timestep := 5, device := .GPU,
    cpuIncludeOptions := [], gpuIncludes := ["-I/gpu/include"] }

/-- A scalar potential that is not attached. -/
def sDetached : CPPPotentialBaseState :=
  { r_cut := .finite 11, code := some "return 0;",
    param_array := [.finite 1], attached := false }

/-- The same scalar potential, attached. -/
def sAttached : CPPPotentialBaseState :=
  { sDetached with attached := true }

/-- A union potential that is not attached, with both code bodies set and
cached values in both host parameter arrays. -/
def uDetached : CPPUnionPotentialState :=
  { base := { r_cut := .finite 0, code := some "iso body",
              param_array := [.finite 1, .finite 2], attached := false }
    r_cut_constituent := .finite 1
    r_cut_isotropic := .finite 0
    leaf_capacity := 4
    code_constituent := some "cc body"
    code_isotropic := some "iso body"
    alpha_iso_host := [.finite 1, .finite 2]
    alpha_union_host := [.finite 3]
    cpp_alpha_iso := none
    cpp_alpha_union := none
    alpha_iso_aliased := false
    alpha_union_aliased := false }

/-- The same union potential, attached. -/
def uAttached : CPPUnionPotentialState :=
  { uDetached with base := { uDetached.base with attached := true } }

/-- The state produced by `CPPUnionPotential_init (finite 1) (finite 0)
(some "cc") (some "iso") none`. -/
def uInitEx : CPPUnionPotentialState :=
  { base := { r_cut := .finite 0, code := some "iso",
              param_array := [], attached := false }
    r_cut_constituent := .finite 1
    r_cut_isotropic := .finite 0
    leaf_capacity := 4
    code_constituent := some "cc"
    code_isotropic := some "iso"
    alpha_iso_host := []
    alpha_union_host := []
    cpp_alpha_iso := none
    cpp_alpha_union := none
    alpha_iso_aliased := false
    alpha_union_aliased := false }

/-! ### Claims -/

/-- Claim C1: for every attach attempt on a scalar or union potential, if
the integrator is missing, not an HPMC integrator, or not itself attached,
`_attach` raises a precondition error with an empty JIT-action trace (no
source wrapping and no compilation was attempted) and returns the object
state unchanged: the attached flag, cutoff, code and parameter values are
exactly as before. -/
theorem C1_attach_precondition (sim : Simulation) (s : CPPPotentialBaseState)
    (u : CPPUnionPotentialState) (h : integratorNotReady sim = true) :
    isPreconditionFailure (CPPPotential_attach sim s).1 = true ∧
    (CPPPotential_attach sim s).2 = (s, []) ∧
    isPreconditionFailure (CPPUnionPotential_attach sim u).1 = true ∧
    (CPPUnionPotential_attach sim u).2 = (u, []) := by
  cases hsim : sim.integrator with
  | none =>
      refine ⟨?_, ?_, ?_, ?_⟩ <;>
        simp [CPPPotential_attach, CPPUnionPotential_attach, hsim,
              isPreconditionFailure, PErr.isPrecondition]
  | some integ =>
      simp [integratorNotReady, hsim] at h
      cases hH : integ.isHPMC with
      | false =>
          refine ⟨?_, ?_, ?_, ?_⟩ <;>
            simp [CPPPotential_attach, CPPUnionPotential_attach, hsim, hH,
                  isPreconditionFailure, PErr.isPrecondition]
      | true =>
          cases hA : integ.attached with
          | false =>
              refine ⟨?_, ?_, ?_, ?_⟩ <;>
                simp [CPPPotential_attach, CPPUnionPotential_attach, hsim, hH, hA,
                      isPreconditionFailure, PErr.isPrecondition]
          | true =>
              rw [hH, hA] at h
              simp at h

/-- Witness for C1 at a concrete simulation with no integrator. -/
theorem C1_attach_precondition_witness :
    isPreconditionFailure (CPPPotential_attach simNoIntegrator sDetached).1 = true ∧
    (CPPPotential_attach simNoIntegrator sDetached).2 = (sDetached, []) ∧
    isPreconditionFailure (CPPUnionPotential_attach simNoIntegrator uDetached).1 = true ∧
    (CPPUnionPotential_attach simNoIntegrator uDetached).2 = (uDetached, []) :=
  C1_attach_precondition simNoIntegrator sDetached uDetached (by decide)

/-- Claim C4: resizing the parameter array to any length succeeds while the
potential is not attached (and produces exactly the requested length), and
always fails with the attached-immutable error while attached, regardless
of the requested length, leaving the whole state (hence the stored length)
unchanged. -/
theorem C4_param_array_resize (s : CPPPotentialBaseState) (n : Nat) :
    (s.attached = false →
      (param_array_resize s n).1 = none ∧
      ((param_array_resize s n).2).param_array.length = n) ∧
    (s.attached = true →
      (param_array_resize s n).1 = some PErr.attachedImmutable ∧
      (param_array_resize s n).2 = s) := by
  constructor
  · intro h
    constructor
    · simp [param_array_resize, h]
    · simp [param_array_resize, h, resizeList]
  · intro h
    constructor
    · simp [param_array_resize, h]
    · simp [param_array_resize, h]

/-- Witness for C4: a pre-attach resize to length 3 succeeds, a post-attach
resize to length 5 fails and changes nothing. -/
theorem C4_param_array_resize_witness :
    ((param_array_resize sDetached 3).1 = none ∧
      ((param_array_resize sDetached 3).2).param_array.length = 3) ∧
    ((param_array_resize sAttached 5).1 = some PErr.attachedImmutable ∧
      (param_array_resize sAttached 5).2 = sAttached) :=
  ⟨(C4_param_array_resize sDetached 3).1 rfl,
   (C4_param_array_resize sAttached 5).2 rfl⟩

/-- Claim C5: the total-energy query returns `None` — never a numeric
value, in particular never zero — whenever the potential is not attached,
and when attached returns the move engine's accumulated pairwise
interaction energy queried at the current simulation timestep. -/
theorem C5_energy (sim : Simulation) (s : CPPPotentialBaseState) :
    (s.attached = false →
      CPPPotentialBase_energy sim s = .ok none ∧
      energy_is_numeric (CPPPotentialBase_energy sim s) = false) ∧
    (∀ integ, s.attached = true → sim.integrator = some integ →
      CPPPotentialBase_energy sim s =
        .ok (some (integ.computePatchEnergy sim.timestep))) := by
  constructor
  · intro h
    constructor
    · simp [CPPPotentialBase_energy, h]
    · simp [CPPPotentialBase_energy, h, energy_is_numeric]
  · intro integ h hint
    simp [CPPPotentialBase_energy, h, hint]

/-- Witness for C5: a detached potential reports `None` (non-numeric), an
attached one reports the engine's accumulated energy at the current step. -/
theorem C5_energy_witness :
    (CPPPotentialBase_energy simReadyCPU sDetached = .ok none ∧
      energy_is_numeric (CPPPotentialBase_energy simReadyCPU sDetached) = false) ∧
    CPPPotentialBase_energy simReadyCPU sAttached =
      .ok (some (integReady.computePatchEnergy simReadyCPU.timestep)) :=
  ⟨(C5_energy simReadyCPU sDetached).1 rfl,
   (C5_energy simReadyCPU sAttached).2 integReady rfl rfl⟩

/-- Claim C6: the kernel source builder is deterministic — for each target,
two invocations of the wrapping function on identical inputs produce
identical generated source text.  In the embedding both builders are pure
functions of their input (as in the source, which only concatenates fixed
literals around the body), so the two invocations coincide. -/
theorem C6_wrap_deterministic (code : String) :
    wrap_cpu_code code = wrap_cpu_code code ∧
    wrap_gpu_code code = wrap_gpu_code code :=
  ⟨rfl, rfl⟩

/-- Claim C8: setting `code_constituent` on an attached union potential
always raises the attached-immutable error and leaves the state (hence the
stored body) unchanged; setting it while not attached always succeeds, and
a subsequent read of `code_constituent` returns exactly the newly stored
body. -/
theorem C8_code_constituent (s : CPPUnionPotentialState) (c : String) :
    (s.base.attached = true →
      (code_constituent_set s c).1 = some PErr.attachedImmutable ∧
      (code_constituent_set s c).2 = s) ∧
    (s.base.attached = false →
      (code_constituent_set s c).1 = none ∧
      code_constituent_get (code_constituent_set s c).2 = some c) := by
  constructor
  · intro h
    constructor
    · simp [code_constituent_set, h]
    · simp [code_constituent_set, h]
  · intro h
    constructor
    · simp [code_constituent_set, h]
    · simp [code_constituent_set, code_constituent_get, h]

/-- Witness for C8: the setter fails (leaving state intact) on an attached
union potential and round-trips through the getter on a detached one. -/
theorem C8_code_constituent_witness :
    ((code_constituent_set uAttached "new body").1 = some PErr.attachedImmutable ∧
      (code_constituent_set uAttached "new body").2 = uAttached) ∧
    ((code_constituent_set uDetached "new body").1 = none ∧
      code_constituent_get (code_constituent_set uDetached "new body").2 =
        some "new body") :=
  ⟨(C8_code_constituent uAttached "new body").1 rfl,
   (C8_code_constituent uDetached "new body").2 rfl⟩

/-- Claim C9: constructing a scalar or union potential with an initial
parameter array containing any non-finite value fails with the
invalid-parameter error; the constructor returns no state at all (the
`Except` is an error), so no partial state is stored. -/
theorem C9_init_nonfinite (r rc : F32) (code cc : Option String)
    (arr : List F32) (h : arr.any (fun v => !v.isFinite) = true) :
    CPPPotentialBase_init r code (some arr) = .error PErr.invalidParameter ∧
    CPPUnionPotential_init rc r cc code (some arr) =
      .error PErr.invalidParameter := by
  have hv : ndarray_validator_ok arr = false := by
    obtain ⟨x, hx, hfin⟩ := List.any_eq_true.mp h
    show (arr.all F32.isFinite) = false
    rw [Bool.eq_false_iff]
    intro hall
    rw [List.all_eq_true] at hall
    have hxf := hall x hx
    rw [hxf] at hfin
    simp at hfin
  constructor
  · simp [CPPPotentialBase_init, hv]
  · simp [CPPUnionPotential_init, CPPPotentialBase_init, hv]

/-- Witness for C9 at the array `[0.0, nan]`. -/
theorem C9_init_nonfinite_witness :
    CPPPotentialBase_init (F32.finite 11) (some "iso") (some [F32.finite 0, F32.nan]) =
      .error PErr.invalidParameter ∧
    CPPUnionPotential_init (F32.finite 1) (F32.finite 11) (some "cc") (some "iso")
        (some [F32.finite 0, F32.nan]) =
      .error PErr.invalidParameter :=
  C9_init_nonfinite (F32.finite 11) (F32.finite 1) (some "iso") (some "cc")
    [F32.finite 0, F32.nan] (by decide)

/-- Claim C10: every successfully constructed union potential has
`leaf_capacity = 4`: the constructor takes no leaf-capacity argument and
unconditionally initializes the field to 4 (so `1 ≤ leaf_capacity` holds
at construction). -/
theorem C10_leaf_capacity (rc ri : F32) (cc ci : Option String)
    (pa : Option (List F32)) (s : CPPUnionPotentialState)
    (h : CPPUnionPotential_init rc ri cc ci pa = .ok s) :
    s.leaf_capacity = 4 ∧ 1 ≤ s.leaf_capacity := by
  cases hb : CPPPotentialBase_init ri ci pa with
  | error e => simp [CPPUnionPotential_init, hb] at h
  | ok b =>
      simp [CPPUnionPotential_init, hb] at h
      subst h
      refine ⟨rfl, ?_⟩
      show (1 : Nat) ≤ 4
      omega

/-- Witness for C10 at a concrete construction. -/
theorem C10_leaf_capacity_witness :
    uInitEx.leaf_capacity = 4 ∧ 1 ≤ uInitEx.leaf_capacity :=
  C10_leaf_capacity (.finite 1) (.finite 0) (some "cc") (some "iso") none
    uInitEx (by rfl)

/-- After the `alpha_iso` accessor has been repointed to the engine buffer,
writing index `i` and immediately reading index `i` returns the written
value, for every valid index. -/
theorem alpha_iso_write_read (s : CPPUnionPotentialState)
    (h : s.alpha_iso_aliased = true) (i : Nat) (v : F32)
    (hi : i < alpha_iso_len s) :
    alpha_iso_read (alpha_iso_write s i v) i = some v := by
  simp [alpha_iso_len, h] at hi
  simp [alpha_iso_write, alpha_iso_read, h]
  exact List.getElem?_set_eq_of_lt v hi

/-- After the `alpha_union` accessor has been repointed to the engine
buffer, writing index `i` and immediately reading index `i` returns the
written value, for every valid index. -/
theorem alpha_union_write_read (s : CPPUnionPotentialState)
    (h : s.alpha_union_aliased = true) (i : Nat) (v : F32)
    (hi : i < alpha_union_len s) :
    alpha_union_read (alpha_union_write s i v) i = some v := by
  simp [alpha_union_len, h] at hi
  simp [alpha_union_write, alpha_union_read, h]
  exact List.getElem?_set_eq_of_lt v hi

/-- Claim C2: after every successful union-potential attach, the host-held
values of both parameter arrays have been copied into the engine-owned
buffers, the host-visible accessors have been repointed to alias those
buffers, and consequently writing any valid index through an accessor and
immediately reading it back returns the written value, for both arrays. -/
theorem C2_union_attach_mirror (sim : Simulation) (s s' : CPPUnionPotentialState)
    (acts : List JITAction)
    (h : CPPUnionPotential_attach sim s = (none, s', acts)) :
    s'.cpp_alpha_iso = some s.alpha_iso_host ∧
    s'.cpp_alpha_union = some s.alpha_union_host ∧
    s'.alpha_iso_aliased = true ∧
    s'.alpha_union_aliased = true ∧
    (∀ i v, i < alpha_iso_len s' →
      alpha_iso_read (alpha_iso_write s' i v) i = some v) ∧
    (∀ i v, i < alpha_union_len s' →
      alpha_union_read (alpha_union_write s' i v) i = some v) := by
  cases hsim : sim.integrator with
  | none => simp [CPPUnionPotential_attach, hsim] at h
  | some integ =>
    cases hH : integ.isHPMC with
    | false => simp [CPPUnionPotential_attach, hsim, hH] at h
    | true =>
      cases hA : integ.attached with
      | false => simp [CPPUnionPotential_attach, hsim, hH, hA] at h
      | true =>
        cases hcc : s.code_constituent with
        | none => simp [CPPUnionPotential_attach, hsim, hH, hA, hcc] at h
        | some cc =>
          cases hci : s.code_isotropic with
          | none => simp [CPPUnionPotential_attach, hsim, hH, hA, hcc, hci] at h
          | some ci =>
            simp [CPPUnionPotential_attach, hsim, hH, hA, hcc, hci] at h
            obtain ⟨hs, -⟩ := h
            subst hs
            refine ⟨rfl, rfl, rfl, rfl, ?_, ?_⟩
            · intro i v hi
              exact alpha_iso_write_read _ rfl i v hi
            · intro i v hi
              exact alpha_union_write_read _ rfl i v hi

/-- Witness for C2: attach a concrete union potential on a ready CPU
simulation, then check the copied buffers, the repointed accessors and a
write/read round trip on each array at index 0. -/
theorem C2_union_attach_mirror_witness :
    ((CPPUnionPotential_attach simReadyCPU uDetached).2.1).cpp_alpha_iso =
      some uDetached.alpha_iso_host ∧
    ((CPPUnionPotential_attach simReadyCPU uDetached).2.1).alpha_iso_aliased = true ∧
    alpha_iso_read
      (alpha_iso_write ((CPPUnionPotential_attach simReadyCPU uDetached).2.1) 0
        (F32.finite 42)) 0 = some (F32.finite 42) ∧
    alpha_union_read
      (alpha_union_write ((CPPUnionPotential_attach simReadyCPU uDetached).2.1) 0
        (F32.finite 9)) 0 = some (F32.finite 9) := by
  have H := C2_union_attach_mirror simReadyCPU uDetached
    ((CPPUnionPotential_attach simReadyCPU uDetached).2.1)
    ((CPPUnionPotential_attach simReadyCPU uDetached).2.2) (by rfl)
  exact ⟨H.1, H.2.2.1, H.2.2.2.2.1 0 (F32.finite 42) (by decide),
         H.2.2.2.2.2 0 (F32.finite 9) (by decide)⟩

/-- Claim C3, counterexample to the claim as stated: on a GPU device, a
successful union-potential attach does not wrap the constituent body for
the GPU target — only the isotropic body is GPU-wrapped.  Concretely, with
constituent body `"cc body"` the attach succeeds yet no `wrapGPU "cc body"`
call appears in the JIT-action trace. -/
theorem C3_gpu_constituent_not_wrapped :
    uDetached.code_constituent = some "cc body" ∧
    (CPPUnionPotential_attach simReadyGPU uDetached).1 = none ∧
    JITAction.wrapGPU "cc body" ∉
      (CPPUnionPotential_attach simReadyGPU uDetached).2.2 := by
  refine ⟨rfl, rfl, ?_⟩
  decide

/-- Claim C3 (amended): for every union-potential attach with a ready HPMC
integrator and both bodies present, both the constituent and the isotropic
body are wrapped for the CPU target; on a GPU device only the isotropic
body is additionally wrapped for the GPU target, and the GPU compilation
options include the `-DUNION_EVAL` union-mode flag; on a CPU device the
evaluator is compiled with the CPU include options. -/
theorem C3_union_attach_wrapping (sim : Simulation) (s : CPPUnionPotentialState)
    (cc ci : String) (hcc : s.code_constituent = some cc)
    (hci : s.code_isotropic = some ci)
    (hready : integratorNotReady sim = false) :
    (CPPUnionPotential_attach sim s).1 = none ∧
    (sim.device = DeviceKind.GPU →
      (CPPUnionPotential_attach sim s).2.2 =
        [JITAction.wrapCPU cc, JITAction.wrapCPU ci, JITAction.wrapGPU ci,
         JITAction.compile .GPU (sim.gpuIncludes ++ ["-DUNION_EVAL"])]) ∧
    (sim.device = DeviceKind.CPU →
      (CPPUnionPotential_attach sim s).2.2 =
        [JITAction.wrapCPU cc, JITAction.wrapCPU ci,
         JITAction.compile .CPU sim.cpuIncludeOptions]) := by
  cases hsim : sim.integrator with
  | none => simp [integratorNotReady, hsim] at hready
  | some integ =>
    simp [integratorNotReady, hsim] at hready
    obtain ⟨hH, hA⟩ := hready
    refine ⟨?_, ?_, ?_⟩
    · simp [CPPUnionPotential_attach, hsim, hH, hA, hcc, hci]
    · intro hdev
      simp [CPPUnionPotential_attach, hsim, hH, hA, hcc, hci, hdev]
    · intro hdev
      simp [CPPUnionPotential_attach, hsim, hH, hA, hcc, hci, hdev]

/-- Witness for the amended C3 on a concrete GPU simulation: the trace
CPU-wraps both bodies, GPU-wraps only the isotropic body, and compiles
with the union-mode flag. -/
theorem C3_union_attach_wrapping_witness :
    (CPPUnionPotential_attach simReadyGPU uDetached).2.2 =
      [JITAction.wrapCPU "cc body", JITAction.wrapCPU "iso body",
       JITAction.wrapGPU "iso body",
       JITAction.compile .GPU (simReadyGPU.gpuIncludes ++ ["-DUNION_EVAL"])] :=
  (C3_union_attach_wrapping simReadyGPU uDetached "cc body" "iso body"
    rfl rfl (by decide)).2.1 rfl

/-- Claim C7: for every code body and both targets, the generated unit is
the fixed wrapper template with the body spliced strictly inside the
braces of `eval`, and the wrapper template declares exactly two mutable
float-array symbols (`param_array` and `alpha_union` — `float *`
occurs exactly twice, once for each) and exactly one function named
`eval`, returning `float`, with the fixed nine-argument signature; in the
GPU template all three declarations are additionally marked `__device__`
(the marker occurs exactly three times), while the CPU template has no
device markers. -/
theorem C7_generated_unit (code : String) :
    wrap_cpu_code code = cpu_head ++ code ++ cpu_tail ∧
    wrap_gpu_code code = gpu_head ++ code ++ gpu_tail ∧
    countOccs cpu_template "float *" = 2 ∧
    countOccs cpu_template "float *param_array;" = 1 ∧
    countOccs cpu_template "float *alpha_union;" = 1 ∧
    countOccs cpu_template eval_signature = 1 ∧
    countOccs cpu_template "eval(" = 1 ∧
    countOccs cpu_template "float eval(" = 1 ∧
    countOccs cpu_template "__device__" = 0 ∧
    countOccs gpu_template "float *" = 2 ∧
    countOccs gpu_template "__device__ float *param_array;" = 1 ∧
    countOccs gpu_template "__device__ float *alpha_union;" = 1 ∧
    countOccs gpu_template ("__device__ inline " ++ eval_signature) = 1 ∧
    countOccs gpu_template "eval(" = 1 ∧
    countOccs gpu_template "__device__" = 3 :=
  ⟨rfl, rfl, by decide, by decide, by decide, by decide, by decide, by decide,
   by decide, by decide, by decide, by decide, by decide, by decide, by decide⟩
